import Mathlib

/-!
Shallow embedding of the e-commerce backend (src/main.py, src/schemas.py):
the catalog query/filter/sort/pagination pipeline, the review aggregator,
product lookup with related items, and the seed operation.

Modelling conventions:
* the MongoDB document store is the external collaborator of the spec; each
  collection is a `List` of documents and store primitives (`find`, `find_one`,
  `update_one`, `insert_one`, `count`) are list operations with MongoDB's
  documented semantics;
* numeric `float` fields (prices, ratings) are modelled as `ℚ`; review ratings
  are integers as in the schema;
* `$regex` with option `"i"` is modelled as case-insensitive substring
  matching, the store contract for metacharacter-free patterns;
* request handling follows FastAPI: security dependencies are resolved before
  the handler body, and pydantic validation of the request body happens before
  the handler body runs.
-/

/-- Errors surfaced by the API: `validation` is a pydantic request-body
rejection (HTTP 422), `http s d` is an explicit `HTTPException(s, d)`. -/
inductive Err where
  | validation (msg : String)
  | http (status : Nat) (detail : String)
deriving DecidableEq, Repr

/-- schemas.Variant -/
structure Variant where
  name : String
  value : String
  sku : Option String
  price_delta : ℚ
  stock : Int
deriving DecidableEq, Repr

/-- schemas.Category as stored in the `category` collection. -/
structure CategoryDoc where
  name : String
  slug : String
  image : Option String
  description : Option String
deriving DecidableEq, Repr

/-- schemas.Product as stored in the `product` collection; `oid` models the
store-assigned `_id` (stringified). -/
structure ProductDoc where
  oid : String
  title : String
  slug : String
  description : Option String
  price : ℚ
  images : List String
  category : String
  tags : List String
  variants : List Variant
  rating : ℚ
  rating_count : Nat
deriving DecidableEq, Repr

/-- A review document as persisted by `add_review` (schemas.Review plus the
server-assigned `created_at`, modelled as a `Nat` timestamp). -/
structure ReviewDoc where
  product_id : String
  user_id : String
  user_name : String
  rating : Int
  comment : Option String
  created_at : Nat
deriving DecidableEq, Repr

/-- schemas.User as stored in the `user` collection; `oid` models `_id`. -/
structure UserDoc where
  oid : String
  name : String
  email : String
  password_hash : String
  avatar_url : Option String
  is_active : Bool
deriving DecidableEq, Repr

/-- main.UserOut, the identity returned by `get_current_user`. -/
structure UserOut where
  id : String
  name : String
  email : String
  avatar_url : Option String
deriving DecidableEq, Repr

/-- Modelled contract of the external credential service (python-jose): a
token that verifies carries its decoded payload's `sub` claim; a token whose
signature fails (`JWTError`) is modelled as one with no subject, since the
source collapses both paths into the same 401 `credentials_exception`. -/
structure BearerToken where
  sub : Option String
deriving DecidableEq, Repr

/-- The document store: one list per collection used by the claims. -/
structure Store where
  users : List UserDoc
  categories : List CategoryDoc
  products : List ProductDoc
  reviews : List ReviewDoc
deriving DecidableEq, Repr

/-- `needle` occurs as a contiguous sublist of `hay`. -/
def sublistContains : List Char → List Char → Bool
  | [], needle => needle.isEmpty
  | c :: t, needle => needle.isPrefixOf (c :: t) || sublistContains t needle

/-- Case-insensitive substring test: the store-contract semantics of
`{"$regex": pat, "$options": "i"}` for metacharacter-free patterns. -/
def containsCI (pat text : String) : Bool :=
  sublistContains (text.toList.map Char.toLower) (pat.toList.map Char.toLower)

/-- The filter document `filter_q` built by `list_products` (main.py lines
130-145): `qRegex` is the `$or` regex term over title/description/tags,
`categoryEq` the exact `category` value, and the price bounds the
`$gte`/`$lte` entries of the `price` sub-document. -/
structure ProductFilter where
  qRegex : Option String
  categoryEq : Option String
  priceGte : Option ℚ
  priceLte : Option ℚ
deriving DecidableEq, Repr

/-- main.list_products lines 130-145. Python truthiness: `if q:` and
`if category:` skip both `None` and the empty string; the price bounds use
`is not None`. -/
def buildFilter (q category : Option String) (min_price max_price : Option ℚ) :
    ProductFilter :=
  { qRegex := match q with
      | some s => if s = "" then none else some s
      | none => none
    categoryEq := match category with
      | some s => if s = "" then none else some s
      | none => none
    priceGte := min_price
    priceLte := max_price }

/-- Store-side evaluation of the filter document against one product document:
`$or` over case-insensitive regex on `title`, `description` and `tags` (an
array field matches when any element matches; a missing `description` does not
match), exact equality on `category`, and the closed price range. -/
def matchesFilter (f : ProductFilter) (p : ProductDoc) : Bool :=
  (match f.qRegex with
    | none => true
    | some s =>
        containsCI s p.title ||
        (match p.description with
          | none => false
          | some d => containsCI s d) ||
        p.tags.any (fun t => containsCI s t)) &&
  (match f.categoryEq with
    | none => true
    | some c => p.category == c) &&
  (match f.priceGte with
    | none => true
    | some m => decide (m ≤ p.price)) &&
  (match f.priceLte with
    | none => true
    | some m => decide (p.price ≤ m))

/-- Sort key for `sort=price_asc`. -/
def priceAsc (a b : ProductDoc) : Prop := a.price ≤ b.price

/-- Sort key for `sort=price_desc`. -/
def priceDesc (a b : ProductDoc) : Prop := b.price ≤ a.price

/-- Sort key for `sort=rating_desc`. -/
def ratingDesc (a b : ProductDoc) : Prop := b.rating ≤ a.rating

instance : DecidableRel priceAsc :=
  fun a b => inferInstanceAs (Decidable (a.price ≤ b.price))

instance : DecidableRel priceDesc :=
  fun a b => inferInstanceAs (Decidable (b.price ≤ a.price))

instance : DecidableRel ratingDesc :=
  fun a b => inferInstanceAs (Decidable (b.rating ≤ a.rating))

instance : IsTotal ProductDoc priceAsc := ⟨fun a b => le_total a.price b.price⟩

instance : IsTrans ProductDoc priceAsc :=
  ⟨fun _ _ _ hab hbc => le_trans hab hbc⟩

instance : IsTotal ProductDoc priceDesc := ⟨fun a b => le_total b.price a.price⟩

instance : IsTrans ProductDoc priceDesc :=
  ⟨fun _ _ _ hab hbc => le_trans hbc hab⟩

instance : IsTotal ProductDoc ratingDesc :=
  ⟨fun a b => le_total b.rating a.rating⟩

instance : IsTrans ProductDoc ratingDesc :=
  ⟨fun _ _ _ hab hbc => le_trans hbc hab⟩

/-- main.list_products lines 147-157: the optional `sort_spec` applied by the
store's cursor. -/
def applySort (sort : Option String) (l : List ProductDoc) : List ProductDoc :=
  if sort = some "price_asc" then List.insertionSort priceAsc l
  else if sort = some "price_desc" then List.insertionSort priceDesc l
  else if sort = some "rating_desc" then List.insertionSort ratingDesc l
  else l

/-- The page object returned by `list_products`. -/
structure Paged where
  items : List ProductDoc
  page : Nat
  limit : Nat
  total : Nat
deriving DecidableEq, Repr

/-- main.list_products lines 118-166: build the conjunctive filter, sort,
count all matches before `skip`/`limit`, then slice the page with
offset `(page - 1) * limit` and at most `limit` items. `page` and `limit` are
modelled as naturals: the store rejects negative `skip`/`limit` arguments and
the claims quantify over values ≥ 1. -/
def list_products (q category : Option String) (min_price max_price : Option ℚ)
    (page limit : Nat) (sort : Option String) (products : List ProductDoc) :
    Paged :=
  let filter_q := buildFilter q category min_price max_price
  let matched := products.filter (fun p => matchesFilter filter_q p)
  let sorted := applySort sort matched
  let total := matched.length
  let items := (sorted.drop ((page - 1) * limit)).take limit
  { items := items, page := page, limit := limit, total := total }

/-- main.get_product lines 169-179: `find_one` on slug (first match), 404 when
absent, otherwise the product plus up to 8 related products from the same
category whose slug differs. -/
def get_product (slug : String) (products : List ProductDoc) :
    Except Err (ProductDoc × List ProductDoc) :=
  match products.find? (fun p => p.slug == slug) with
  | none => Except.error (Err.http 404 "Product not found")
  | some prod =>
      let related :=
        (products.filter (fun p => p.category == prod.category && p.slug != slug)).take 8
      Except.ok (prod, related)

/-- main.get_current_user lines 59-71 together with its `oauth2_scheme`
dependency (line 20): `OAuth2PasswordBearer` is constructed with the default
`auto_error=True`, so a request with no bearer token is rejected with
HTTP 401 "Not authenticated" before the handler runs; a decodable token with a
missing subject, an undecodable token, or a subject matching no stored user
all raise the 401 `credentials_exception`. -/
def get_current_user (token : Option BearerToken) (users : List UserDoc) :
    Except Err UserOut :=
  match token with
  | none => Except.error (Err.http 401 "Not authenticated")
  | some t =>
      match t.sub with
      | none => Except.error (Err.http 401 "Could not validate credentials")
      | some uid =>
          match users.find? (fun u => u.oid == uid) with
          | none => Except.error (Err.http 401 "Could not validate credentials")
          | some u =>
              Except.ok { id := u.oid, name := u.name, email := u.email,
                          avatar_url := u.avatar_url }

/-- The raw JSON body of a review request before pydantic validation: `none`
models both an absent field and an explicit `null`. -/
structure RawReview where
  product_id : Option String
  user_id : Option String
  user_name : Option String
  rating : Option Int
  comment : Option String
deriving DecidableEq, Repr

/-- A review body accepted by pydantic validation of schemas.Review. -/
structure ReviewIn where
  product_id : String
  user_id : String
  user_name : String
  rating : Int
  comment : Option String
deriving DecidableEq, Repr

/-- Pydantic validation of schemas.Review (schemas.py lines 42-47):
`product_id`, `user_id`, `user_name` and `rating` are required (a missing or
null value is rejected), and `rating` must satisfy `ge=1, le=5`; `comment` is
optional. -/
def parseReview (r : RawReview) : Except Err ReviewIn :=
  match r.product_id, r.user_id, r.user_name, r.rating with
  | some pid, some uid, some uname, some rat =>
      if 1 ≤ rat ∧ rat ≤ 5 then
        Except.ok { product_id := pid, user_id := uid, user_name := uname,
                    rating := rat, comment := r.comment }
      else
        Except.error (Err.validation "rating out of range [1,5]")
  | _, _, _, _ => Except.error (Err.validation "field required")

/-- Floor of a rational as an integer (the denominator is positive). -/
def floorQ (x : ℚ) : Int := Int.fdiv x.num x.den

/-- Round a rational to the nearest integer, ties to even — the rounding used
by Python's built-in `round`. -/
def roundHalfEven (x : ℚ) : Int :=
  let fl := floorQ x
  let fr := x - (fl : ℚ)
  if fr < 1/2 then fl
  else if 1/2 < fr then fl + 1
  else if fl % 2 = 0 then fl else fl + 1

/-- Python's `round(x, 2)` modelled over `ℚ`: round to the nearest multiple
of 1/100, ties to even. -/
def round2 (x : ℚ) : ℚ := (roundHalfEven (x * 100) : ℚ) / 100

/-- `db["product"].update_one({"_id": oid}, {"$set": {"rating": r,
"rating_count": c}})`: updates the first document whose `_id` matches, a
no-op when none does. -/
def update_one (products : List ProductDoc) (oid : String) (r : ℚ) (c : Nat) :
    List ProductDoc :=
  match products with
  | [] => []
  | p :: rest =>
      if p.oid == oid then { p with rating := r, rating_count := c } :: rest
      else p :: update_one rest oid r c

/-- main.add_review lines 200-204: re-read all reviews for the product id,
and when non-empty write `rating := round(mean, 2)` and
`rating_count := count` onto the product document; zero reviews leave the
products untouched. -/
def recompute_rating (product_id : String) (reviews : List ReviewDoc)
    (products : List ProductDoc) : List ProductDoc :=
  let revs := reviews.filter (fun r => r.product_id == product_id)
  if revs.isEmpty then products
  else
    let avg : ℚ := ((revs.map (fun r => (r.rating : ℚ))).sum) / revs.length
    update_one products product_id (round2 avg) revs.length

/-- The handler body of main.add_review lines 190-205, after dependency
resolution and body validation: reject a mismatched product id with 400,
otherwise persist the review (overwriting `user_id`/`user_name` with the
authenticated identity when one is present — the source's `if current:`),
then recompute the product's rating fields. The inserted id is modelled as
the insertion index. -/
def add_review_route (product_id : String) (review : ReviewIn)
    (current : Option UserOut) (now : Nat) (s : Store) :
    Except Err String × Store :=
  if review.product_id ≠ product_id then
    (Except.error (Err.http 400 "Mismatched product id"), s)
  else
    let data0 : ReviewDoc :=
      { product_id := review.product_id, user_id := review.user_id,
        user_name := review.user_name, rating := review.rating,
        comment := review.comment, created_at := now }
    let data := match current with
      | some u => { data0 with user_id := u.id, user_name := u.name }
      | none => data0
    let rid := toString s.reviews.length
    let reviews2 := s.reviews ++ [data]
    let products2 := recompute_rating product_id reviews2 s.products
    (Except.ok rid, { s with reviews := reviews2, products := products2 })

/-- The full POST /api/products/{product_id}/reviews endpoint: FastAPI first
resolves the `Depends(get_current_user)` security dependency (which fails
with 401 whenever the token is absent or invalid — despite the
`Optional[UserOut]` annotation, `current` can never be `None`), then
validates the body against schemas.Review, then runs the handler. -/
def add_review (product_id : String) (raw : RawReview)
    (token : Option BearerToken) (now : Nat) (s : Store) :
    Except Err String × Store :=
  match get_current_user token s.users with
  | Except.error e => (Except.error e, s)
  | Except.ok current =>
      match parseReview raw with
      | Except.error e => (Except.error e, s)
      | Except.ok review => add_review_route product_id review (some current) now s

/-- The sample categories inserted by main.seed lines 228-232. -/
def seedCategories : List CategoryDoc :=
  [ { name := "Cards", slug := "cards", image := some "/cat-cards.jpg",
      description := none },
    { name := "Accessories", slug := "accessories",
      image := some "/cat-accessories.jpg", description := none },
    { name := "Digital", slug := "digital", image := some "/cat-digital.jpg",
      description := none } ]

/-- The sample products inserted by main.seed lines 235-278; the store
assigns fresh `_id`s on insertion, irrelevant to the claims and modelled as
empty strings. -/
def seedProducts : List ProductDoc :=
  [ { oid := "", title := "Glass Credit Card", slug := "glass-credit-card",
      description := some "Minimal, premium glass-morphic card.",
      price := 129, images := ["/prod-card-1.jpg", "/prod-card-2.jpg", "/prod-card-3.jpg"],
      category := "cards", tags := ["card", "glass", "fintech"],
      variants := [ { name := "Color", value := "Frost", sku := some "GC-FR",
                      price_delta := 0, stock := 25 },
                    { name := "Color", value := "Graphite", sku := some "GC-GR",
                      price_delta := 10, stock := 12 } ],
      rating := 46/10, rating_count := 42 },
    { oid := "", title := "Metal Card Holder", slug := "metal-card-holder",
      description := some "Slim aluminum RFID-blocking holder.",
      price := 49, images := ["/prod-holder-1.jpg", "/prod-holder-2.jpg"],
      category := "accessories", tags := ["holder", "rfid"],
      variants := [ { name := "Color", value := "Silver", sku := some "MH-SV",
                      price_delta := 0, stock := 40 },
                    { name := "Color", value := "Black", sku := some "MH-BK",
                      price_delta := 0, stock := 35 } ],
      rating := 44/10, rating_count := 26 },
    { oid := "", title := "Virtual Card Subscription", slug := "virtual-card-subscription",
      description := some "Secure virtual cards for online purchases.",
      price := 999/100, images := ["/prod-virtual-1.jpg"],
      category := "digital", tags := ["subscription", "virtual"],
      variants := [], rating := 48/10, rating_count := 61 } ]

/-- main.seed lines 225-280: insert the sample categories only when the
category collection is empty, and the sample products only when the product
collection is empty. -/
def seed (s : Store) : Store :=
  let s1 := if s.categories.length = 0
    then { s with categories := s.categories ++ seedCategories } else s
  let s2 := if s1.products.length = 0
    then { s1 with products := s1.products ++ seedProducts } else s1
  s2

/-- Spec-side matching predicate, transcribed from the spec's words: a
document matches iff it satisfies every supplied filter, where `q` matches
case-insensitively against title, description, or any tag (substring match),
`category` is an exact slug match, and the price bounds constrain `price`;
omitted parameters impose no constraint. -/
def specMatches (q category : Option String) (min_price max_price : Option ℚ)
    (p : ProductDoc) : Prop :=
  (match q with
    | none => True
    | some s =>
        containsCI s p.title = true ∨
        (match p.description with
          | none => False
          | some d => containsCI s d = true) ∨
        (∃ t ∈ p.tags, containsCI s t = true)) ∧
  (match category with
    | none => True
    | some c => p.category = c) ∧
  (match min_price with
    | none => True
    | some m => m ≤ p.price) ∧
  (match max_price with
    | none => True
    | some m => p.price ≤ m)

/-- The amended spec-side predicate: identical to `specMatches` except that a
supplied category equal to the empty string imposes no constraint, matching
the source's Python truthiness test `if category:`. -/
def specMatchesAmended (q category : Option String)
    (min_price max_price : Option ℚ) (p : ProductDoc) : Prop :=
  (match q with
    | none => True
    | some s =>
        containsCI s p.title = true ∨
        (match p.description with
          | none => False
          | some d => containsCI s d = true) ∨
        (∃ t ∈ p.tags, containsCI s t = true)) ∧
  (match category with
    | none => True
    | some c => c = "" ∨ p.category = c) ∧
  (match min_price with
    | none => True
    | some m => m ≤ p.price) ∧
  (match max_price with
    | none => True
    | some m => p.price ≤ m)

/-- Concrete product used to instantiate the theorems. -/
def demoProduct : ProductDoc :=
  { oid := "p1", title := "Glass Card", slug := "glass-card",
    description := some "Minimal card", price := 129, images := [],
    category := "cards", tags := ["card"], variants := [], rating := 0,
    rating_count := 0 }

/-- Concrete user used to instantiate the theorems. -/
def demoUser : UserDoc :=
  { oid := "u1", name := "Alice", email := "a@x.com", password_hash := "h",
    avatar_url := none, is_active := true }

/-- A token whose subject is `demoUser`. -/
def demoToken : BearerToken := { sub := some "u1" }

/-- Concrete store used to instantiate the theorems. -/
def demoStore : Store :=
  { users := [demoUser], categories := [], products := [demoProduct],
    reviews := [] }

/-- A valid review body for `demoProduct` carrying its own user identity. -/
def demoRaw : RawReview :=
  { product_id := some "p1", user_id := some "body-user",
    user_name := some "Body Name", rating := some 5, comment := none }

/-- A review body whose rating is out of range. -/
def demoRawBadRating : RawReview :=
  { product_id := some "p1", user_id := some "body-user",
    user_name := some "Body Name", rating := some 6, comment := none }

/-- The store state after a successful demo review submission. -/
def demoAfter : Store := (add_review "p1" demoRaw (some demoToken) 0 demoStore).2

/-- A store with all collections empty. -/
def emptyStore : Store := { users := [], categories := [], products := [], reviews := [] }

theorem sublistContains_nil (hay : List Char) : sublistContains hay [] = true := by
  cases hay <;> rfl

theorem containsCI_empty (t : String) : containsCI "" t = true := by
  have h : ("".toList.map Char.toLower) = [] := by decide
  unfold containsCI
  rw [h]
  exact sublistContains_nil _

/-- C3: for every combination of product filters and every page and limit, the
`total` field returned by the product listing equals the number of documents
matching the filter, independent of `page` and `limit`. -/
theorem list_products_total_counts_filter
    (q category : Option String) (min_price max_price : Option ℚ)
    (page limit : Nat) (sort : Option String) (products : List ProductDoc) :
    (list_products q category min_price max_price page limit sort products).total
      = products.countP
          (fun p => matchesFilter (buildFilter q category min_price max_price) p) ∧
    ∀ page2 limit2 : Nat,
      (list_products q category min_price max_price page2 limit2 sort products).total
        = (list_products q category min_price max_price page limit sort products).total := by
  refine ⟨?_, fun page2 limit2 => rfl⟩
  simp [list_products, List.countP_eq_length_filter]

/-- C4: for all page and limit values ≥ 1, the product listing returns at most
`limit` items, and those items are the contiguous slice of the
filtered-and-sorted document sequence starting at offset `(page - 1) * limit`. -/
theorem list_products_page_slice
    (q category : Option String) (min_price max_price : Option ℚ)
    (page limit : Nat) (sort : Option String) (products : List ProductDoc)
    (_hp : 1 ≤ page) (_hl : 1 ≤ limit) :
    (list_products q category min_price max_price page limit sort products).items.length
      ≤ limit ∧
    (list_products q category min_price max_price page limit sort products).items
      = ((applySort sort (products.filter
            (fun p => matchesFilter (buildFilter q category min_price max_price) p))).drop
          ((page - 1) * limit)).take limit := by
  refine ⟨?_, rfl⟩
  simp [list_products, List.length_take]

theorem list_products_page_slice_witness :
    (list_products none none none none 1 12 none [demoProduct]).items.length ≤ 12 ∧
    (list_products none none none none 1 12 none [demoProduct]).items
      = ((applySort none ([demoProduct].filter
            (fun p => matchesFilter (buildFilter none none none none) p))).drop
          ((1 - 1) * 12)).take 12 :=
  list_products_page_slice none none none none 1 12 none [demoProduct]
    (by decide) (by decide)

/-- C7: when `sort=price_asc` the prices of the items returned on any single
page form a non-decreasing sequence, and when `sort=price_desc` they form a
non-increasing sequence. -/
theorem list_products_sort_monotone
    (q category : Option String) (min_price max_price : Option ℚ)
    (page limit : Nat) (products : List ProductDoc) :
    ((list_products q category min_price max_price page limit
        (some "price_asc") products).items.map (fun p => p.price)).Pairwise (· ≤ ·) ∧
    ((list_products q category min_price max_price page limit
        (some "price_desc") products).items.map (fun p => p.price)).Pairwise
      (fun a b => b ≤ a) := by
  constructor
  · rw [List.pairwise_map]
    have hs : (applySort (some "price_asc") (products.filter
        (fun p => matchesFilter (buildFilter q category min_price max_price) p))).Pairwise
          priceAsc := by
      simpa [applySort] using
        List.sorted_insertionSort priceAsc (products.filter
          (fun p => matchesFilter (buildFilter q category min_price max_price) p))
    exact hs.sublist ((List.take_sublist _ _).trans (List.drop_sublist _ _))
  · rw [List.pairwise_map]
    have hs : (applySort (some "price_desc") (products.filter
        (fun p => matchesFilter (buildFilter q category min_price max_price) p))).Pairwise
          priceDesc := by
      simpa [applySort] using
        List.sorted_insertionSort priceDesc (products.filter
          (fun p => matchesFilter (buildFilter q category min_price max_price) p))
    exact hs.sublist ((List.take_sublist _ _).trans (List.drop_sublist _ _))

/-- C2 (code evaluation): submitting a review with no bearer token is rejected
with HTTP 401 "Not authenticated" by the `OAuth2PasswordBearer` security
dependency before the handler runs, and the store is unchanged — anonymous
review submission is impossible, contrary to the spec's intent. -/
theorem add_review_no_token_unauthorized
    (product_id : String) (raw : RawReview) (now : Nat) (s : Store) :
    add_review product_id raw none now s
      = (Except.error (Err.http 401 "Not authenticated"), s) := rfl

/-- C8: single-product lookup by slug fails with NotFound whenever no product
has that slug; on success the related list contains at most 8 products, each
sharing the looked-up product's category, and never includes the looked-up
product itself. -/
theorem get_product_not_found_and_related
    (slug : String) (products : List ProductDoc) :
    ((∀ p ∈ products, p.slug ≠ slug) →
        get_product slug products = Except.error (Err.http 404 "Product not found")) ∧
    (∀ prod related, get_product slug products = Except.ok (prod, related) →
        related.length ≤ 8 ∧ (∀ r ∈ related, r.category = prod.category) ∧
        prod ∉ related) := by
  constructor
  · intro h
    have hnone : products.find? (fun p => p.slug == slug) = none := by
      rw [List.find?_eq_none]
      intro x hx
      simpa using h x hx
    simp [get_product, hnone]
  · intro prod related hok
    unfold get_product at hok
    cases hfind : products.find? (fun p => p.slug == slug) with
    | none => rw [hfind] at hok; exact absurd hok (by simp)
    | some pr =>
        rw [hfind] at hok
        have hps : prod.slug = slug := by
          have := List.find?_some hfind
          have hpr : pr = prod := by
            have := congrArg (fun x => match x with
              | Except.ok (a, _) => a
              | Except.error _ => pr) hok
            simpa using this
          rw [← hpr]
          simpa using List.find?_some hfind
        have hrel : related
            = (products.filter
                (fun p => p.category == pr.category && p.slug != slug)).take 8 := by
          have := congrArg (fun x => match x with
            | Except.ok (_, b) => b
            | Except.error _ => related) hok
          simpa using this.symm
        have hprodeq : pr = prod := by
          have := congrArg (fun x => match x with
            | Except.ok (a, _) => a
            | Except.error _ => pr) hok
          simpa using this
        subst hprodeq
        refine ⟨?_, ?_, ?_⟩
        · rw [hrel]
          exact List.length_take_le 8 _
        · intro r hr
          rw [hrel] at hr
          have hr2 := (List.take_sublist 8 _).subset hr
          have := (List.mem_filter.mp hr2).2
          simp only [Bool.and_eq_true, beq_iff_eq] at this
          exact this.1
        · intro hmem
          rw [hrel] at hmem
          have hr2 := (List.take_sublist 8 _).subset hmem
          have := (List.mem_filter.mp hr2).2
          simp only [Bool.and_eq_true, bne_iff_ne, ne_eq] at this
          exact this.2 hps

theorem get_product_not_found_and_related_witness :
    get_product "zzz" [demoProduct] = Except.error (Err.http 404 "Product not found") ∧
    (∀ r ∈ ([] : List ProductDoc), r.category = demoProduct.category) ∧
    demoProduct ∉ ([] : List ProductDoc) := by
  have hok : get_product "glass-card" [demoProduct] = Except.ok (demoProduct, []) := by rfl
  have h2 := (get_product_not_found_and_related "glass-card" [demoProduct]).2
    demoProduct [] hok
  exact ⟨(get_product_not_found_and_related "zzz" [demoProduct]).1 (by decide),
    h2.2.1, h2.2.2⟩

/-- C9: the seed operation is idempotent: it inserts the sample categories only
when the category collection is empty and the sample products only when the
product collection is empty, so a second call leaves the category and product
collections (hence their counts) unchanged. -/
theorem seed_idempotent (s : Store) :
    seed (seed s) = seed s ∧
    (s.categories = [] → (seed s).categories = seedCategories) ∧
    (s.categories ≠ [] → (seed s).categories = s.categories) ∧
    (s.products = [] → (seed s).products = seedProducts) ∧
    (s.products ≠ [] → (seed s).products = s.products) := by
  rcases s with ⟨us, cats, prods, revs⟩
  cases cats <;> cases prods <;>
    simp [seed, seedCategories, seedProducts]

theorem seed_idempotent_witness :
    seed (seed emptyStore) = seed emptyStore ∧
    (seed emptyStore).categories = seedCategories ∧
    (seed emptyStore).products = seedProducts :=
  ⟨(seed_idempotent emptyStore).1, (seed_idempotent emptyStore).2.1 rfl,
    (seed_idempotent emptyStore).2.2.2.1 rfl⟩

/-- C5 counterexample: with a supplied empty-string category, the built filter
imposes no category constraint (Python truthiness `if category:`), so
`demoProduct` (category "cards") matches the store filter although it does not
satisfy the claim's exact-slug-match conjunct for the supplied parameter. -/
theorem filter_conjunction_empty_category_cex :
    matchesFilter (buildFilter none (some "") none none) demoProduct = true ∧
    ¬ specMatches none (some "") none none demoProduct := by
  refine ⟨by decide, ?_⟩
  intro h
  have h2 : demoProduct.category = "" := h.2.1
  exact absurd h2 (by decide)

/-- C5 (amended): a document matches the built filter iff it satisfies every
supplied filter — q case-insensitively substring-matching title, description
or any tag, category an exact slug match, price within the supplied bounds —
except that a supplied empty-string category (like an empty q) imposes no
constraint. -/
theorem filter_conjunction_iff
    (q category : Option String) (min_price max_price : Option ℚ)
    (p : ProductDoc) :
    matchesFilter (buildFilter q category min_price max_price) p = true ↔
      specMatchesAmended q category min_price max_price p := by
  rcases q with _ | qs <;> rcases category with _ | cs <;>
    rcases min_price with _ | m1 <;> rcases max_price with _ | m2 <;>
    cases hd : p.description <;>
    simp only [matchesFilter, buildFilter, specMatchesAmended, hd] <;>
    (try split_ifs) <;>
    simp_all [List.any_eq_true, containsCI_empty, Bool.and_eq_true,
      Bool.or_eq_true, beq_iff_eq, decide_eq_true_iff, or_assoc, and_assoc]

theorem find?_update_one (oid : String) (r : ℚ) (c : Nat) :
    ∀ (prods : List ProductDoc) (p2 : ProductDoc),
      (update_one prods oid r c).find? (fun p => p.oid == oid) = some p2 →
      p2.rating = r ∧ p2.rating_count = c := by
  intro prods
  induction prods with
  | nil =>
      intro p2 h
      simp [update_one] at h
  | cons p rest ih =>
      intro p2 h
      by_cases hp : (p.oid == oid) = true
      · rw [show update_one (p :: rest) oid r c
              = { p with rating := r, rating_count := c } :: rest by
            simp [update_one, hp],
          List.find?_cons_of_pos _ (by simpa using hp)] at h
        have h2 := Option.some.inj h
        exact ⟨by rw [← h2], by rw [← h2]⟩
      · rw [show update_one (p :: rest) oid r c = p :: update_one rest oid r c by
            simp [update_one, hp],
          List.find?_cons_of_neg _ (by simpa using hp)] at h
        exact ih p2 h

theorem find?_recompute_rating (product_id : String) (revs : List ReviewDoc)
    (prods : List ProductDoc) (p2 : ProductDoc)
    (hne : revs.filter (fun r => r.product_id == product_id) ≠ [])
    (h : (recompute_rating product_id revs prods).find?
          (fun p => p.oid == product_id) = some p2) :
    p2.rating = round2
      (((revs.filter (fun r => r.product_id == product_id)).map
          (fun r => (r.rating : ℚ))).sum
        / ((revs.filter (fun r => r.product_id == product_id)).length : ℚ)) ∧
    p2.rating_count = (revs.filter (fun r => r.product_id == product_id)).length := by
  rw [show recompute_rating product_id revs prods
        = update_one prods product_id
            (round2 (((revs.filter (fun r => r.product_id == product_id)).map
                (fun r => (r.rating : ℚ))).sum
              / ((revs.filter (fun r => r.product_id == product_id)).length : ℚ)))
            (revs.filter (fun r => r.product_id == product_id)).length by
      simp only [recompute_rating]
      rw [if_neg (by simpa [List.isEmpty_iff] using hne)]] at h
  exact find?_update_one _ _ _ _ p2 h

/-- C1: after a review is successfully submitted for a product (sequentially),
the product document's rating equals the arithmetic mean of the rating field
over all reviews for that product id rounded to 2 decimal places and
`rating_count` equals the number of those reviews; and if the post-insert
re-read returns zero reviews, the products are left untouched. -/
theorem add_review_updates_product_rating
    (product_id : String) (raw : RawReview) (token : Option BearerToken)
    (now : Nat) (s : Store) (rid : String) (s2 : Store)
    (h : add_review product_id raw token now s = (Except.ok rid, s2)) :
    (∀ p2, s2.products.find? (fun p => p.oid == product_id) = some p2 →
        p2.rating = round2
          (((s2.reviews.filter (fun r => r.product_id == product_id)).map
              (fun r => (r.rating : ℚ))).sum
            / ((s2.reviews.filter (fun r => r.product_id == product_id)).length : ℚ)) ∧
        p2.rating_count
          = (s2.reviews.filter (fun r => r.product_id == product_id)).length) ∧
    (∀ (revs : List ReviewDoc) (prods : List ProductDoc),
        revs.filter (fun r => r.product_id == product_id) = [] →
        recompute_rating product_id revs prods = prods) := by
  refine ⟨?_, ?_⟩
  · intro p2 hfind
    simp only [add_review] at h
    cases hcur : get_current_user token s.users with
    | error e => simp only [hcur] at h; exact absurd h (by simp)
    | ok current =>
        simp only [hcur] at h
        cases hparse : parseReview raw with
        | error e => simp only [hparse] at h; exact absurd h (by simp)
        | ok review =>
            simp only [hparse] at h
            by_cases hpid : review.product_id ≠ product_id
            · simp only [add_review_route, if_pos hpid] at h
              exact absurd h (by simp)
            · simp only [add_review_route, if_neg hpid] at h
              push_neg at hpid
              have hs2 : ({ s with
                  reviews := s.reviews ++
                    [{ product_id := review.product_id, user_id := current.id,
                       user_name := current.name, rating := review.rating,
                       comment := review.comment, created_at := now }],
                  products := recompute_rating product_id
                    (s.reviews ++
                      [{ product_id := review.product_id, user_id := current.id,
                         user_name := current.name, rating := review.rating,
                         comment := review.comment, created_at := now }])
                    s.products } : Store) = s2 := congrArg Prod.snd h
              rw [← hs2] at hfind
              rw [← hs2]
              refine find?_recompute_rating product_id _ _ p2 ?_ hfind
              intro hcontra
              rw [List.filter_append] at hcontra
              have h2 := (List.append_eq_nil.mp hcontra).2
              simp [hpid] at h2
  · intro revs prods h0
    simp [recompute_rating, h0]

theorem add_review_updates_product_rating_witness :
    ∃ p2, demoAfter.products.find? (fun p => p.oid == "p1") = some p2 ∧
      p2.rating = round2
        (((demoAfter.reviews.filter (fun r => r.product_id == "p1")).map
            (fun r => (r.rating : ℚ))).sum
          / ((demoAfter.reviews.filter (fun r => r.product_id == "p1")).length : ℚ)) ∧
      p2.rating_count
        = (demoAfter.reviews.filter (fun r => r.product_id == "p1")).length := by
  have h : add_review "p1" demoRaw (some demoToken) 0 demoStore
      = (Except.ok "0", demoAfter) := rfl
  exact ⟨_, rfl, (add_review_updates_product_rating "p1" demoRaw (some demoToken)
    0 demoStore "0" demoAfter h).1 _ rfl⟩

/-- C6: submitting a review whose rating is outside the integer range [1,5]
always fails the pydantic validation boundary with an invalid-argument error,
and the endpoint never creates a review: the store is unchanged and the
response is an error. -/
theorem review_rating_out_of_range_rejected
    (raw : RawReview) (rat : Int) (hr : raw.rating = some rat)
    (hout : rat < 1 ∨ 5 < rat) :
    (∃ m, parseReview raw = Except.error (Err.validation m)) ∧
    (∀ (product_id : String) (token : Option BearerToken) (now : Nat) (s : Store),
        (add_review product_id raw token now s).2 = s ∧
        ∃ e, (add_review product_id raw token now s).1 = Except.error e) := by
  have hcond : ¬(1 ≤ rat ∧ rat ≤ 5) := by rcases hout with h | h <;> omega
  have hparse : ∃ m, parseReview raw = Except.error (Err.validation m) := by
    rcases raw with ⟨rpid, ruid, runame, rrating, rcomment⟩
    simp only at hr
    subst hr
    rcases rpid with _ | pid <;> rcases ruid with _ | uid <;>
      rcases runame with _ | uname <;>
      simp [parseReview, hcond]
  refine ⟨hparse, ?_⟩
  intro product_id token now s
  cases hcur : get_current_user token s.users with
  | error e =>
      constructor
      · simp [add_review, hcur]
      · exact ⟨e, by simp [add_review, hcur]⟩
  | ok current =>
      obtain ⟨m, hm⟩ := hparse
      constructor
      · simp [add_review, hcur, hm]
      · exact ⟨Err.validation m, by simp [add_review, hcur, hm]⟩

theorem review_rating_out_of_range_rejected_witness :
    (∃ m, parseReview demoRawBadRating = Except.error (Err.validation m)) ∧
    ((add_review "p1" demoRawBadRating none 0 demoStore).2 = demoStore ∧
      ∃ e, (add_review "p1" demoRawBadRating none 0 demoStore).1
        = Except.error e) := by
  have h := review_rating_out_of_range_rejected demoRawBadRating 6 rfl
    (Or.inr (by decide))
  exact ⟨h.1, h.2 "p1" none 0 demoStore⟩

/-- C10: when a review is submitted with a valid bearer token, the persisted
review's `user_id` and `user_name` are taken from the authenticated user's
identity, overriding whatever `user_id`/`user_name` the request body
supplied. -/
theorem add_review_overrides_identity
    (product_id : String) (raw : RawReview) (t : BearerToken) (now : Nat)
    (s : Store) (u : UserOut) (rid : String) (s2 : Store)
    (hu : get_current_user (some t) s.users = Except.ok u)
    (h : add_review product_id raw (some t) now s = (Except.ok rid, s2)) :
    ∃ d : ReviewDoc, s2.reviews = s.reviews ++ [d] ∧ d.user_id = u.id ∧
      d.user_name = u.name := by
  simp only [add_review, hu] at h
  cases hparse : parseReview raw with
  | error e => simp only [hparse] at h; exact absurd h (by simp)
  | ok review =>
      simp only [hparse] at h
      by_cases hpid : review.product_id ≠ product_id
      · simp only [add_review_route, if_pos hpid] at h
        exact absurd h (by simp)
      · simp only [add_review_route, if_neg hpid] at h
        have h2 : ({ s with
            reviews := s.reviews ++
              [{ product_id := review.product_id, user_id := u.id,
                 user_name := u.name, rating := review.rating,
                 comment := review.comment, created_at := now }],
            products := recompute_rating product_id
              (s.reviews ++
                [{ product_id := review.product_id, user_id := u.id,
                   user_name := u.name, rating := review.rating,
                   comment := review.comment, created_at := now }])
              s.products } : Store) = s2 := congrArg Prod.snd h
        exact ⟨{ product_id := review.product_id, user_id := u.id,
                 user_name := u.name, rating := review.rating,
                 comment := review.comment, created_at := now },
          by rw [← h2], rfl, rfl⟩

theorem add_review_overrides_identity_witness :
    ∃ d : ReviewDoc, demoAfter.reviews = demoStore.reviews ++ [d] ∧
      d.user_id = "u1" ∧ d.user_name = "Alice" := by
  have hu : get_current_user (some demoToken) demoStore.users
      = Except.ok { id := "u1", name := "Alice", email := "a@x.com",
                    avatar_url := none } := rfl
  have h : add_review "p1" demoRaw (some demoToken) 0 demoStore
      = (Except.ok "0", demoAfter) := rfl
  exact add_review_overrides_identity "p1" demoRaw demoToken 0 demoStore
    { id := "u1", name := "Alice", email := "a@x.com", avatar_url := none }
    "0" demoAfter hu h
